import Mathlib

/-!
Shallow embedding of `src/apps/desktop/src-tauri/src/main.rs`, the native
entry point of the CaseAI desktop shell.  The Rust program resolves the
path of a bundled backend executable, spawns it with two environment
variables, stores the optional child handle in Tauri-managed state, runs
the event loop, and kills the child when the managed state is dropped.

Paths (`PathBuf`) are lists of components; `join` appends one component.
The OS-visible state is a `World`: which paths exist, whether the OS will
honour a `spawn` or a `kill`, the parent environment, and the observable
effects (log lines written via stderr, children created, termination
signals sent).  Panics (`Result::expect`) become `Except.error`.
-/

deriving instance DecidableEq for Except

namespace CaseAI

/-- A filesystem path as its list of components; `PathBuf::join` appends
one component. -/
abbrev FsPath := List String

/-- `PathBuf::join` for a single component. -/
def pathJoin (p : FsPath) (s : String) : FsPath := p ++ [s]

/-- Debug rendering of a path, as the Rust debug formatter prints it: the
components joined by the separator, in quotes. -/
def pathRepr (p : FsPath) : String :=
  "\"" ++ String.intercalate "/" p ++ "\""

/-- A spawned child process: its pid, the program it runs, and the list of
environment overrides that were set on the `Command` with `.env`. -/
structure Child where
  pid : Nat
  program : FsPath
  env : List (String × String)
deriving DecidableEq

/-- `struct BackendChild(Option<Child>)`: the managed wrapper around the
optional child handle. -/
structure BackendChild where
  child : Option Child
deriving DecidableEq

/-- The OS and application state visible to the launcher, together with
its observable effects. -/
structure World where
  /-- The operating system the shell runs on.  The launcher never
  consults it: `main.rs` has no platform conditional. -/
  platform : String
  /-- The resource directory lookup of the application context: `none`
  when the directory cannot be determined. -/
  resourceDir : Option FsPath
  /-- The paths for which the existence check returns true. -/
  files : List FsPath
  /-- Whether the OS will honour `Command::spawn`. -/
  spawnSucceeds : Bool
  /-- Whether `Child::kill` reports success. -/
  killSucceeds : Bool
  /-- The parent process environment, inherited by spawned children. -/
  parentEnv : List (String × String)
  /-- Lines written to stderr. -/
  log : List String
  /-- The child processes created so far, in creation order. -/
  spawned : List Child
  /-- The pids that have been sent a termination signal, in order. -/
  killed : List Nat
  /-- The Tauri-managed state, once `BackendChild` has been stored. -/
  managed : Option BackendChild
  /-- Whether the event loop of the shell has run. -/
  ranEventLoop : Bool
deriving DecidableEq

/-- Lookup in an association list of environment variables; a later `.env`
call for the same key overrides an earlier one. -/
def envLookup (l : List (String × String)) (k : String) : Option String :=
  (l.reverse.find? (fun p => p.1 == k)).map Prod.snd

/-- The effective environment of a spawned child for key `k`: `Command`
inherits the parent environment and applies the override list on top. -/
def childEnv (parent : List (String × String)) (c : Child) (k : String) :
    Option String :=
  match envLookup c.env k with
  | some v => some v
  | none => envLookup parent k

/-- `backend_exe_path`: joins the resource directory with `bin` and the
hardcoded executable name `lcai_api.exe`.  The call
`resource_dir().expect("resource_dir")` panics when the directory is
unresolvable, modelled as `Except.error "resource_dir"`. -/
def backend_exe_path (w : World) : Except String FsPath :=
  match w.resourceDir with
  | none => .error "resource_dir"
  | some rd => .ok (pathJoin (pathJoin rd "bin") "lcai_api.exe")

/-- The override list built by the two `cmd.env` calls in `spawn_backend`. -/
def backendEnvOverrides : List (String × String) :=
  [("LCAI_PORT", "8787"), ("LCAI_JWT_SECRET", "CHANGE_ME_DEV_ONLY")]

/-- `spawn_backend`: resolves the executable path; if the file does not
exist, logs a diagnostic naming the attempted path and returns no handle;
otherwise spawns the child with the two environment overrides, and the
trailing `.ok()` turns an OS spawn failure into `none`. -/
def spawn_backend (w : World) : Except String (Option Child × World) :=
  match backend_exe_path w with
  | .error e => .error e
  | .ok exe =>
    if w.files.contains exe = false then
      .ok (none, { w with
        log := w.log ++ ["Backend exe not found at: " ++ pathRepr exe] })
    else if w.spawnSucceeds then
      let c : Child := ⟨w.spawned.length, exe, backendEnvOverrides⟩
      .ok (some c, { w with spawned := w.spawned ++ [c] })
    else
      .ok (none, w)

/-- `Child::kill`: sends the termination signal (recorded in `killed`) and
reports success or failure, e.g. when the process already exited. -/
def killChild (c : Child) (w : World) : Except String Unit × World :=
  (if w.killSucceeds then .ok () else .error "kill failed",
   { w with killed := w.killed ++ [c.pid] })

/-- `impl Drop for BackendChild`: if a handle is present, kill it and
discard the result; otherwise do nothing. -/
def dropBackendChild (b : BackendChild) (w : World) : World :=
  match b.child with
  | none => w
  | some c => (killChild c w).2

/-- `main`: the setup hook spawns the backend and stores the handle in
managed state; the event loop runs (window events are a no-op); when the
application exits, the managed `BackendChild` is dropped.  A panic inside
setup (from `backend_exe_path`) aborts startup. -/
def main_run (w : World) : Except String World :=
  match spawn_backend w with
  | .error e => .error e
  | .ok (child, w1) =>
    let w2 := { w1 with managed := some ⟨child⟩ }
    let w3 := { w2 with ranEventLoop := true }
    .ok (dropBackendChild ⟨child⟩ w3)

/-- The child that a successful `spawn_backend` creates in world `w` with
resource directory `rd`. -/
def spawnedChild (w : World) (rd : FsPath) : Child :=
  ⟨w.spawned.length, rd ++ ["bin", "lcai_api.exe"], backendEnvOverrides⟩

/-- A world whose resource directory resolves to `/app/resources` and
which contains the backend executable at the resolved path. -/
def worldA : World :=
  { platform := "windows"
    resourceDir := some ["/app/resources"]
    files := [["/app/resources", "bin", "lcai_api.exe"]]
    spawnSucceeds := true
    killSucceeds := true
    parentEnv := []
    log := []
    spawned := []
    killed := []
    managed := none
    ranEventLoop := false }

/-- The child that `spawn_backend` creates in `worldA`. -/
def childA : Child :=
  ⟨0, ["/app/resources", "bin", "lcai_api.exe"], backendEnvOverrides⟩

/-- Like `worldA` but the backend executable is absent. -/
def worldB : World :=
  { worldA with files := [] }

/-- Like `worldA` but the OS refuses to create the process. -/
def worldC : World :=
  { worldA with spawnSucceeds := false }

/-- Like `worldA` but the resource directory cannot be determined. -/
def worldD : World :=
  { worldA with resourceDir := none }

/-- Unfolding of `spawn_backend` when the executable is absent: no handle,
no child created, one diagnostic line appended. -/
theorem spawn_backend_absent (w : World) (rd : FsPath)
    (h : w.resourceDir = some rd)
    (habs : w.files.contains (rd ++ ["bin", "lcai_api.exe"]) = false) :
    spawn_backend w = .ok (none, { w with
      log := w.log ++ ["Backend exe not found at: "
        ++ pathRepr (rd ++ ["bin", "lcai_api.exe"])] }) := by
  have habm : rd ++ ["bin", "lcai_api.exe"] ∉ w.files := by simpa using habs
  simp [spawn_backend, backend_exe_path, pathJoin, h, habm]

/-- Unfolding of `spawn_backend` when the executable is present and the OS
honours the spawn. -/
theorem spawn_backend_present (w : World) (rd : FsPath)
    (h : w.resourceDir = some rd)
    (hex : w.files.contains (rd ++ ["bin", "lcai_api.exe"]) = true)
    (hsp : w.spawnSucceeds = true) :
    spawn_backend w = .ok (some (spawnedChild w rd),
      { w with spawned := w.spawned ++ [spawnedChild w rd] }) := by
  have hem : rd ++ ["bin", "lcai_api.exe"] ∈ w.files := by simpa using hex
  simp [spawn_backend, backend_exe_path, pathJoin, h, hem, hsp, spawnedChild]

/-- Unfolding of `spawn_backend` when the executable is present but the OS
refuses to create the process: the error is swallowed. -/
theorem spawn_backend_refused (w : World) (rd : FsPath)
    (h : w.resourceDir = some rd)
    (hex : w.files.contains (rd ++ ["bin", "lcai_api.exe"]) = true)
    (hsp : w.spawnSucceeds = false) :
    spawn_backend w = .ok (none, w) := by
  have hem : rd ++ ["bin", "lcai_api.exe"] ∈ w.files := by simpa using hex
  simp [spawn_backend, backend_exe_path, pathJoin, h, hem, hsp]

/-- Unfolding of the full lifecycle when the executable is absent. -/
theorem main_run_absent (w : World) (rd : FsPath)
    (h : w.resourceDir = some rd)
    (habs : w.files.contains (rd ++ ["bin", "lcai_api.exe"]) = false) :
    main_run w = .ok { w with
      log := w.log ++ ["Backend exe not found at: "
        ++ pathRepr (rd ++ ["bin", "lcai_api.exe"])],
      managed := some ⟨none⟩, ranEventLoop := true } := by
  simp [main_run, spawn_backend_absent w rd h habs, dropBackendChild]

/-- Unfolding of the full lifecycle when the OS refuses the spawn. -/
theorem main_run_refused (w : World) (rd : FsPath)
    (h : w.resourceDir = some rd)
    (hex : w.files.contains (rd ++ ["bin", "lcai_api.exe"]) = true)
    (hsp : w.spawnSucceeds = false) :
    main_run w = .ok { w with managed := some ⟨none⟩, ranEventLoop := true } := by
  simp [main_run, spawn_backend_refused w rd h hex hsp, dropBackendChild]

/-- Unfolding of the full lifecycle when the spawn succeeds: the child is
created, registered, and sent one termination signal at teardown. -/
theorem main_run_present (w : World) (rd : FsPath)
    (h : w.resourceDir = some rd)
    (hex : w.files.contains (rd ++ ["bin", "lcai_api.exe"]) = true)
    (hsp : w.spawnSucceeds = true) :
    main_run w = .ok { w with
      spawned := w.spawned ++ [spawnedChild w rd],
      managed := some ⟨some (spawnedChild w rd)⟩,
      ranEventLoop := true,
      killed := w.killed ++ [w.spawned.length] } := by
  simp [main_run, spawn_backend_present w rd h hex hsp, dropBackendChild,
    killChild, spawnedChild]

/-- C1 (counterexample): in `worldA` the spawn succeeds and returns a
handle, but the environment of the child does not contain a variable named
`PORT`: the code sets `LCAI_PORT`, not `PORT`. -/
theorem c1_port_counterexample :
    spawn_backend worldA = .ok (some childA, { worldA with spawned := [childA] })
      ∧ childEnv worldA.parentEnv childA "PORT" = none := by
  decide

/-- C1 (amended): when the resource directory resolves and the backend
executable is present at the resolved path and the OS honours the spawn,
`spawn_backend` returns a present handle and the environment of the
spawned child contains the variable `LCAI_PORT` with value `8787`. -/
theorem c1_spawn_sets_lcai_port (w : World) (rd : FsPath)
    (h : w.resourceDir = some rd)
    (hex : w.files.contains (rd ++ ["bin", "lcai_api.exe"]) = true)
    (hsp : w.spawnSucceeds = true) :
    ∃ c w1, spawn_backend w = .ok (some c, w1)
      ∧ childEnv w.parentEnv c "LCAI_PORT" = some "8787" := by
  refine ⟨spawnedChild w rd, _, spawn_backend_present w rd h hex hsp, ?_⟩
  simp [childEnv, envLookup, spawnedChild, backendEnvOverrides]

/-- C1 witness at `worldA`. -/
theorem c1_spawn_sets_lcai_port_witness :
    ∃ c w1, spawn_backend worldA = .ok (some c, w1)
      ∧ childEnv worldA.parentEnv c "LCAI_PORT" = some "8787" :=
  c1_spawn_sets_lcai_port worldA ["/app/resources"] rfl (by decide) rfl

/-- C2: when the backend executable does not exist at the resolved path,
`spawn_backend` returns no handle, creates no child process, and logs a
diagnostic containing the attempted path; the application does not
terminate and its event loop runs. -/
theorem c2_missing_exe_degrades (w : World) (rd : FsPath)
    (h : w.resourceDir = some rd)
    (habs : w.files.contains (rd ++ ["bin", "lcai_api.exe"]) = false) :
    ∃ w1, spawn_backend w = .ok (none, w1)
      ∧ w1.spawned = w.spawned
      ∧ w1.log = w.log ++ ["Backend exe not found at: "
          ++ pathRepr (rd ++ ["bin", "lcai_api.exe"])]
      ∧ ∃ w2, main_run w = .ok w2 ∧ w2.ranEventLoop = true
          ∧ w2.spawned = w.spawned := by
  exact ⟨_, spawn_backend_absent w rd h habs, rfl, rfl,
    _, main_run_absent w rd h habs, rfl, rfl⟩

/-- C2 witness at `worldB`. -/
theorem c2_missing_exe_degrades_witness :
    ∃ w1, spawn_backend worldB = .ok (none, w1)
      ∧ w1.spawned = worldB.spawned
      ∧ w1.log = worldB.log ++ ["Backend exe not found at: "
          ++ pathRepr (["/app/resources"] ++ ["bin", "lcai_api.exe"])]
      ∧ ∃ w2, main_run worldB = .ok w2 ∧ w2.ranEventLoop = true
          ∧ w2.spawned = worldB.spawned :=
  c2_missing_exe_degrades worldB ["/app/resources"] rfl (by decide)

/-- C3: dropping a `BackendChild` that holds no handle performs no action
and raises no error: the world is returned unchanged. -/
theorem c3_drop_absent_noop (w : World) : dropBackendChild ⟨none⟩ w = w := rfl

/-- C4: after a successful spawn, the full application lifecycle sends the
spawned process a termination signal exactly once, and only after the
spawn: starting from a world with no signals sent, the final world has
exactly the pid of the spawned child in its kill list. -/
theorem c4_kill_exactly_once (w : World) (rd : FsPath)
    (h : w.resourceDir = some rd)
    (hex : w.files.contains (rd ++ ["bin", "lcai_api.exe"]) = true)
    (hsp : w.spawnSucceeds = true)
    (hk : w.killed = []) :
    ∃ c w2, main_run w = .ok w2
      ∧ w2.spawned = w.spawned ++ [c]
      ∧ w2.killed = [c.pid]
      ∧ w2.killed.count c.pid = 1 := by
  refine ⟨spawnedChild w rd, _, main_run_present w rd h hex hsp, rfl, ?_, ?_⟩
  · simp [hk, spawnedChild]
  · simp [hk, spawnedChild]

/-- C4 witness at `worldA`. -/
theorem c4_kill_exactly_once_witness :
    ∃ c w2, main_run worldA = .ok w2
      ∧ w2.spawned = worldA.spawned ++ [c]
      ∧ w2.killed = [c.pid]
      ∧ w2.killed.count c.pid = 1 :=
  c4_kill_exactly_once worldA ["/app/resources"] rfl (by decide) rfl rfl

/-- C5: when the resource directory cannot be determined, path resolution
panics and application startup aborts: both `backend_exe_path` and the
whole lifecycle propagate the fatal error, and no degraded continuation
(no log, no spawn, no event loop) is attempted. -/
theorem c5_unresolvable_dir_fatal (w : World)
    (h : w.resourceDir = none) :
    backend_exe_path w = .error "resource_dir"
      ∧ main_run w = .error "resource_dir" := by
  constructor
  · simp [backend_exe_path, h]
  · simp [main_run, spawn_backend, backend_exe_path, h]

/-- C5 witness at `worldD`. -/
theorem c5_unresolvable_dir_fatal_witness :
    backend_exe_path worldD = .error "resource_dir"
      ∧ main_run worldD = .error "resource_dir" :=
  c5_unresolvable_dir_fatal worldD rfl

/-- C6: spawn and kill failures are silently absorbed.  When the
executable exists but the OS refuses to create the process,
`spawn_backend` returns no handle with the world unchanged instead of
propagating an error; and dropping a `BackendChild` holding a handle
discards any error from the kill: whatever `killSucceeds` says, the drop
returns a world (no error channel) that merely records the signal. -/
theorem c6_failures_absorbed (w w2 : World) (c : Child) (rd : FsPath)
    (h : w.resourceDir = some rd)
    (hex : w.files.contains (rd ++ ["bin", "lcai_api.exe"]) = true)
    (hsp : w.spawnSucceeds = false) :
    spawn_backend w = .ok (none, w)
      ∧ dropBackendChild ⟨some c⟩ w2
          = { w2 with killed := w2.killed ++ [c.pid] } := by
  exact ⟨spawn_backend_refused w rd h hex hsp, rfl⟩

/-- C6 witness: the refused spawn at `worldC`, and a drop performed in a
world whose kill reports failure. -/
theorem c6_failures_absorbed_witness :
    spawn_backend worldC = .ok (none, worldC)
      ∧ dropBackendChild ⟨some childA⟩ { worldA with killSucceeds := false }
          = { { worldA with killSucceeds := false } with
              killed := { worldA with killSucceeds := false }.killed
                ++ [childA.pid] } :=
  c6_failures_absorbed worldC { worldA with killSucceeds := false } childA
    ["/app/resources"] rfl (by decide) rfl

/-- C7: per application instance at most one backend handle exists, and a
failed spawn is stored in managed state as an absent handle, not an error:
for any run from a fresh world the managed wrapper holds at most one
child, and for a world missing the executable the managed wrapper holds
`none` while the event loop still runs. -/
theorem c7_single_handle_invariant (w wf : World) (rd rdf : FsPath)
    (h : w.resourceDir = some rd)
    (h0 : w.spawned = [])
    (hf : wf.resourceDir = some rdf)
    (habs : wf.files.contains (rdf ++ ["bin", "lcai_api.exe"]) = false) :
    (∃ b w1, main_run w = .ok w1 ∧ w1.managed = some b
      ∧ w1.spawned.length ≤ 1 ∧ w1.ranEventLoop = true)
      ∧ (∃ w1, main_run wf = .ok w1 ∧ w1.managed = some ⟨none⟩
          ∧ w1.ranEventLoop = true) := by
  constructor
  · cases hcon : w.files.contains (rd ++ ["bin", "lcai_api.exe"]) with
    | false =>
      exact ⟨⟨none⟩, _, main_run_absent w rd h hcon, rfl, by simp [h0], rfl⟩
    | true =>
      cases hsp : w.spawnSucceeds with
      | false =>
        exact ⟨⟨none⟩, _, main_run_refused w rd h hcon hsp, rfl, by simp [h0], rfl⟩
      | true =>
        exact ⟨⟨some (spawnedChild w rd)⟩, _, main_run_present w rd h hcon hsp,
          rfl, by simp [h0], rfl⟩
  · exact ⟨_, main_run_absent wf rdf hf habs, rfl, rfl⟩

/-- C7 witness at `worldA` (spawn succeeds) and `worldB` (executable
absent). -/
theorem c7_single_handle_invariant_witness :
    (∃ b w1, main_run worldA = .ok w1 ∧ w1.managed = some b
      ∧ w1.spawned.length ≤ 1 ∧ w1.ranEventLoop = true)
      ∧ (∃ w1, main_run worldB = .ok w1 ∧ w1.managed = some ⟨none⟩
          ∧ w1.ranEventLoop = true) :=
  c7_single_handle_invariant worldA worldB ["/app/resources"]
    ["/app/resources"] rfl rfl rfl (by decide)

/-- C8: whenever the resource directory resolves, `backend_exe_path`
returns exactly the resource directory joined with the fixed relative
subpath `bin/lcai_api.exe`. -/
theorem c8_resolved_path_is_join (w : World) (rd : FsPath)
    (h : w.resourceDir = some rd) :
    backend_exe_path w = .ok (rd ++ ["bin", "lcai_api.exe"]) := by
  simp [backend_exe_path, pathJoin, h]

/-- C8 witness at `worldA`. -/
theorem c8_resolved_path_is_join_witness :
    backend_exe_path worldA = .ok (["/app/resources"] ++ ["bin", "lcai_api.exe"]) :=
  c8_resolved_path_is_join worldA ["/app/resources"] rfl

/-- C9: when `spawn_backend` starts the child, its environment overrides
on top of the inherited parent environment are exactly
`LCAI_PORT=8787` and `LCAI_JWT_SECRET=CHANGE_ME_DEV_ONLY`; no variable
literally named `PORT` or `SECRET` is set, so for those keys the child
sees whatever the parent environment has. -/
theorem c9_exact_env_overrides (w : World) (rd : FsPath)
    (h : w.resourceDir = some rd)
    (hex : w.files.contains (rd ++ ["bin", "lcai_api.exe"]) = true)
    (hsp : w.spawnSucceeds = true) :
    ∃ c w1, spawn_backend w = .ok (some c, w1)
      ∧ c.env = [("LCAI_PORT", "8787"), ("LCAI_JWT_SECRET", "CHANGE_ME_DEV_ONLY")]
      ∧ envLookup c.env "PORT" = none
      ∧ envLookup c.env "SECRET" = none
      ∧ childEnv w.parentEnv c "PORT" = envLookup w.parentEnv "PORT"
      ∧ childEnv w.parentEnv c "SECRET" = envLookup w.parentEnv "SECRET" := by
  refine ⟨spawnedChild w rd, _, spawn_backend_present w rd h hex hsp,
    rfl, rfl, rfl, ?_, ?_⟩
  · simp [childEnv, envLookup, spawnedChild, backendEnvOverrides]
  · simp [childEnv, envLookup, spawnedChild, backendEnvOverrides]

/-- C9 witness at `worldA`. -/
theorem c9_exact_env_overrides_witness :
    ∃ c w1, spawn_backend worldA = .ok (some c, w1)
      ∧ c.env = [("LCAI_PORT", "8787"), ("LCAI_JWT_SECRET", "CHANGE_ME_DEV_ONLY")]
      ∧ envLookup c.env "PORT" = none
      ∧ envLookup c.env "SECRET" = none
      ∧ childEnv worldA.parentEnv c "PORT" = envLookup worldA.parentEnv "PORT"
      ∧ childEnv worldA.parentEnv c "SECRET" = envLookup worldA.parentEnv "SECRET" :=
  c9_exact_env_overrides worldA ["/app/resources"] rfl (by decide) rfl

/-- C10: the backend executable name is hardcoded as `lcai_api.exe` with
the Windows suffix: the resolved path ends in that exact component on any
platform (two worlds differing arbitrarily, e.g. in platform, but sharing
a resource directory resolve identically), and on any system without a
file of exactly that name under the `bin` subdirectory of the resource
directory the existence check fails and the launcher takes the
degraded-mode branch. -/
theorem c10_hardcoded_exe_name (w wother : World) (rd : FsPath)
    (h : w.resourceDir = some rd)
    (hother : wother.resourceDir = some rd)
    (habs : w.files.contains (rd ++ ["bin", "lcai_api.exe"]) = false) :
    backend_exe_path w = .ok (rd ++ ["bin", "lcai_api.exe"])
      ∧ backend_exe_path wother = backend_exe_path w
      ∧ (rd ++ ["bin", "lcai_api.exe"]).getLast? = some "lcai_api.exe"
      ∧ ∃ w1, spawn_backend w = .ok (none, w1)
          ∧ w1.log = w.log ++ ["Backend exe not found at: "
              ++ pathRepr (rd ++ ["bin", "lcai_api.exe"])] := by
  refine ⟨by simp [backend_exe_path, pathJoin, h],
    by simp [backend_exe_path, pathJoin, h, hother], ?_,
    _, spawn_backend_absent w rd h habs, rfl⟩
  rw [show rd ++ ["bin", "lcai_api.exe"] = (rd ++ ["bin"]) ++ ["lcai_api.exe"] by simp]
  simp

/-- C10 witness: `worldB` on Windows and the same world on Linux resolve
the same path, and the missing file sends `worldB` down the degraded
branch. -/
theorem c10_hardcoded_exe_name_witness :
    backend_exe_path worldB = .ok (["/app/resources"] ++ ["bin", "lcai_api.exe"])
      ∧ backend_exe_path { worldB with platform := "linux" }
          = backend_exe_path worldB
      ∧ ((["/app/resources"] : FsPath) ++ ["bin", "lcai_api.exe"]).getLast?
          = some "lcai_api.exe"
      ∧ ∃ w1, spawn_backend worldB = .ok (none, w1)
          ∧ w1.log = worldB.log ++ ["Backend exe not found at: "
              ++ pathRepr (["/app/resources"] ++ ["bin", "lcai_api.exe"])] :=
  c10_hardcoded_exe_name worldB { worldB with platform := "linux" }
    ["/app/resources"] rfl rfl (by decide)

end CaseAI
